import Mathlib

/-!
Verification of the parking storage and search layer.

The development shallowly embeds the storage layer of the parking backend
(file src/parking/infrastructure/mongodb_storage.py together with the domain
model src/parking/domain/models.py and the synchronization use case in
src/parking/application/use_cases.py).

Modelling conventions:
- A MongoDB document of the parkings collection is a record of type Doc K,
  shaped exactly like the pydantic Parking schema that produced it.  Floats
  are modelled as rationals, except for the transient distance field whose
  value type K is kept as a parameter so that the real-valued haversine
  distance can be plugged in.
- The store state is the list of documents in the collection, in storage
  order.  A find call with a filter predicate p and a cursor limit n,
  consumed through motor to_list with length n, is modelled as
  (store.filter p).take n; to_list with length n returns at most n
  documents even when the cursor itself is unlimited, and List.take limit
  with a natural-number limit reproduces that behaviour, including the
  degenerate limit 0 case.
- The native full-text search of MongoDB is external to this repository, so
  the query operations take the text-match predicate tm as a parameter; the
  concrete token_text_match below is one executable instance of it used for
  concrete scenarios.
- A case-insensitive regex condition built from a literal pattern is
  modelled as case-insensitive substring containment; a regex condition on
  a missing optional field does not match, as in MongoDB.
- Python exceptions are modelled with Except String; the string carries the
  Python exception class name.
-/

/-! ## Character-list string helpers -/

/-- Boolean test that the first character list is a leading segment of the
second one. -/
def leadMatch : List Char → List Char → Bool
  | [], _ => true
  | _ :: _, [] => false
  | a :: as, b :: bs => a == b && leadMatch as bs

/-- Boolean test that the first character list occurs contiguously inside
the second one; this is the semantics of the Python operator in on strings
and of an anchored-nowhere literal regex. -/
def listSub : List Char → List Char → Bool
  | pat, [] => pat.isEmpty
  | pat, s@(_ :: rest) => leadMatch pat s || listSub pat rest

/-- Characters of a string, lowercased; models Python str.lower and the
case folding performed by a regex with options i (ASCII range, as
Char.toLower folds exactly the ASCII uppercase letters). -/
def lowerChars (s : String) : List Char := s.toList.map Char.toLower

/-- Model of a MongoDB regex condition with options i whose pattern is a
literal string: the pattern matches anywhere in the field value, ignoring
case. -/
def regexIMatch (pat s : String) : Bool :=
  listSub (lowerChars pat) (lowerChars s)

/-- Splits a character list on a separator character; consecutive
separators produce empty tokens. -/
def splitTok (sep : Char) : List Char → List (List Char)
  | [] => [[]]
  | c :: cs =>
    let rest := splitTok sep cs
    if c == sep then [] :: rest
    else
      match rest with
      | [] => [[c]]
      | t :: ts => (c :: t) :: ts

/-- Lowercased whitespace tokens of a string, empty tokens dropped. -/
def tokenize (s : String) : List (List Char) :=
  (splitTok ' ' (lowerChars s)).filter (fun t => !t.isEmpty)

/-! ## Domain model (src/parking/domain/models.py) -/

/-- String in two languages. -/
structure LangString where
  en : String
  ru : String

/-- Parking address. -/
structure Address where
  house : LangString
  street : LangString

/-- Information about parking spaces. -/
structure Spaces where
  common : Option Int
  total : Option Int

/-- Price range. -/
structure Price where
  max : Int
  min : Int

/-- Price in zone for vehicle type. -/
structure ZonePrice where
  price : Option Price
  vehicle_type : String

/-- Parking category. -/
structure Category where
  id : Int
  icon_name : Option String
  zone_purpose : Option String

/-- Parking zone. -/
structure Zone where
  id : Int
  active : Bool
  city : String
  description : LangString
  number : String
  prices : Option (List ZonePrice)
  zone_type : String

/-- A JSON coordinate value as stored in a geometry document: either a
number or a nested array.  This is the raw shape the storage code reads
with doc.get before any pydantic validation. -/
inductive CoordVal where
  | num (q : ℚ)
  | arr (elems : List CoordVal)

/-- Object geometry (GeoJSON): a type tag and a coordinates array. -/
structure Geometry where
  type : String
  coordinates : List CoordVal

/-- Geographic coordinates of a proximity query. -/
structure Coordinates where
  latitude : ℚ
  longitude : ℚ

/-- The central parking entity, mirroring the pydantic Parking model field
for field.  K is the value type of the transient distance field. -/
structure Parking (K : Type) where
  id : Int
  address : Address
  blocked : Bool
  category : Category
  center : Geometry
  city : String
  contacts : LangString
  custom_type : Option LangString
  description : LangString
  location : Geometry
  name : LangString
  litera : Option String
  resolution_address : String
  spaces : Spaces
  subway : Option LangString
  zone : Option Zone
  distance : Option K

/-- A stored MongoDB document of the parkings collection.  Documents
written by this application are the model_dump image of a Parking, so the
field set is the same; the geometry coordinate arrays may nevertheless
hold any JSON shape and are re-validated on every read. -/
structure Doc (K : Type) where
  id : Int
  address : Address
  blocked : Bool
  category : Category
  center : Geometry
  city : String
  contacts : LangString
  custom_type : Option LangString
  description : LangString
  location : Geometry
  name : LangString
  litera : Option String
  resolution_address : String
  spaces : Spaces
  subway : Option LangString
  zone : Option Zone
  distance : Option K

/-- Collection of active parkings (class ActiveParkings). -/
structure ActiveParkings (K : Type) where
  parkings : List (Parking K)

/-- ActiveParkings.is_empty: checks if the collection is empty
(len comparison with 0 in the source). -/
def ActiveParkings.is_empty {K : Type} (ap : ActiveParkings K) : Bool :=
  ap.parkings.length == 0

/-- Parking.is_active: the parking is active when the lowercased English
name does not contain the substring disabled parking.  The blocked field
is not consulted. -/
def is_active {K : Type} (p : Parking K) : Bool :=
  !(listSub "disabled parking".toList (lowerChars p.name.en))

/-- filter_active_parkings: keeps only the active parkings. -/
def filter_active_parkings {K : Type} (parkings : List (Parking K)) :
    ActiveParkings K :=
  ActiveParkings.mk (parkings.filter is_active)

/-! ## Document conversion (pydantic validation and model_dump) -/

/-- Boolean test that a coordinate value is a pair of two numbers, the
shape pydantic accepts for Tuple of two floats. -/
def isPointPair : CoordVal → Bool
  | .arr [.num _, .num _] => true
  | _ => false

/-- Boolean test that a coordinate value is an array of number pairs, one
ring of a polygon. -/
def isPairList : CoordVal → Bool
  | .arr l => l.all isPointPair
  | .num _ => false

/-- Boolean test that a coordinates array is a point, exactly two
numbers. -/
def isPointCoords : List CoordVal → Bool
  | [.num _, .num _] => true
  | _ => false

/-- Validation of a GeoJSON coordinates array against the pydantic
Geometry union: a Point pair, a LineString list of pairs, or a Polygon
list of lists of pairs. -/
def validGeometryCoords (cs : List CoordVal) : Bool :=
  isPointCoords cs || cs.all isPointPair || cs.all isPairList

/-- Parking.model_validate on a single stored document: succeeds exactly
when both geometry coordinate arrays fit the Geometry union, and then
copies every field, the stored distance value included. -/
def validate_parking_document {K : Type} (d : Doc K) : Option (Parking K) :=
  if validGeometryCoords d.center.coordinates
      && validGeometryCoords d.location.coordinates then
    some
      { id := d.id
        address := d.address
        blocked := d.blocked
        category := d.category
        center := d.center
        city := d.city
        contacts := d.contacts
        custom_type := d.custom_type
        description := d.description
        location := d.location
        name := d.name
        litera := d.litera
        resolution_address := d.resolution_address
        spaces := d.spaces
        subway := d.subway
        zone := d.zone
        distance := d.distance }
  else none

/-- MongoDBStorage._convert_documents_to_parkings: validates each document
and silently drops the ones that fail validation. -/
def convert_documents_to_parkings {K : Type} (documents : List (Doc K)) :
    List (Parking K) :=
  documents.filterMap validate_parking_document

/-- Parking.model_dump with by_alias: serializes every declared field of
the entity into the stored document, the distance field included, since
the source applies no exclusion. -/
def parking_model_dump {K : Type} (p : Parking K) : Doc K :=
  { id := p.id
    address := p.address
    blocked := p.blocked
    category := p.category
    center := p.center
    city := p.city
    contacts := p.contacts
    custom_type := p.custom_type
    description := p.description
    location := p.location
    name := p.name
    litera := p.litera
    resolution_address := p.resolution_address
    spaces := p.spaces
    subway := p.subway
    zone := p.zone
    distance := p.distance }

/-- MongoDBStorage._convert_parkings_to_documents: dumps each parking of
the collection in order. -/
def convert_parkings_to_documents {K : Type} (active_parkings : ActiveParkings K) :
    List (Doc K) :=
  active_parkings.parkings.map parking_model_dump

/-! ## Bulk replace (upsert) -/

/-- MongoDBStorage._clear_collection: delete_many with the empty filter
removes every document. -/
def clear_collection {K : Type} (_store : List (Doc K)) : List (Doc K) := []

/-- MongoDBStorage._insert_documents: appends the documents to the
collection; with an empty document list it returns without writing. -/
def insert_documents {K : Type} (documents store : List (Doc K)) :
    List (Doc K) :=
  if documents.isEmpty then store else store ++ documents

/-- MongoDBStorage.upsert: with an empty ActiveParkings collection it logs
and returns, leaving the store untouched; otherwise it converts the
parkings to documents, clears the collection and inserts the new
documents. -/
def upsert {K : Type} (active_parkings : ActiveParkings K)
    (store : List (Doc K)) : List (Doc K) :=
  if active_parkings.is_empty then store
  else
    let documents := convert_parkings_to_documents active_parkings
    insert_documents documents (clear_collection store)

/-- UseCases.save_or_update_parking_spots, given the list of parkings the
data source fetch produced: filters to the active parkings and hands the
result to upsert. -/
def save_or_update_parking_spots {K : Type} (raw_parkings : List (Parking K))
    (store : List (Doc K)) : List (Doc K) :=
  upsert (filter_active_parkings raw_parkings) store

/-! ## Name and number search -/

/-- Python truthiness of an optional string: None and the empty string are
falsy. -/
def strTruthy : Option String → Bool
  | none => false
  | some s => !s.isEmpty

/-- Regex condition on the ru component of an optional bilingual field; a
missing field never matches. -/
def optRuMatch (pat : String) : Option LangString → Bool
  | some l => regexIMatch pat l.ru
  | none => false

/-- Regex condition on the en component of an optional bilingual field; a
missing field never matches. -/
def optEnMatch (pat : String) : Option LangString → Bool
  | some l => regexIMatch pat l.en
  | none => false

/-- Regex condition on the litera field; a missing litera never
matches. -/
def literaMatch {K : Type} (pat : String) (d : Doc K) : Bool :=
  match d.litera with
  | some l => regexIMatch pat l
  | none => false

/-- Regex condition on zone.number; a missing zone never matches. -/
def zoneNumberMatch {K : Type} (pat : String) (d : Doc K) : Bool :=
  match d.zone with
  | some z => regexIMatch pat z.number
  | none => false

/-- The inline regex fallback disjunction of find_by_name: name, street,
subway and description in both languages, and nothing else. -/
def find_by_name_regex_cond {K : Type} (name : String) (d : Doc K) : Bool :=
  regexIMatch name d.name.ru || regexIMatch name d.name.en
    || regexIMatch name d.address.street.ru
    || regexIMatch name d.address.street.en
    || optRuMatch name d.subway || optEnMatch name d.subway
    || regexIMatch name d.description.ru || regexIMatch name d.description.en

/-- MongoDBStorage._build_name_search_conditions: the same field set as
the find_by_name fallback plus zone.number. -/
def name_search_cond {K : Type} (name : String) (d : Doc K) : Bool :=
  regexIMatch name d.name.ru || regexIMatch name d.name.en
    || regexIMatch name d.address.street.ru
    || regexIMatch name d.address.street.en
    || optRuMatch name d.subway || optEnMatch name d.subway
    || regexIMatch name d.description.ru || regexIMatch name d.description.en
    || zoneNumberMatch name d

/-- MongoDBStorage._build_number_search_conditions: litera or
zone.number. -/
def number_search_cond {K : Type} (number : String) (d : Doc K) : Bool :=
  literaMatch number d || zoneNumberMatch number d

/-- MongoDBStorage._search_by_text: full-text query limited and drained
with to_list; tm is the text-match predicate of the store. -/
def search_by_text {K : Type} (tm : String → Doc K → Bool)
    (store : List (Doc K)) (name : String) (limit : Nat) : List (Doc K) :=
  (store.filter (tm name)).take limit

/-- MongoDBStorage._search_by_regex: a disjunctive regex query limited and
drained with to_list; the disjunction is passed as one predicate. -/
def search_by_regex {K : Type} (store : List (Doc K)) (cond : Doc K → Bool)
    (limit : Nat) : List (Doc K) :=
  (store.filter cond).take limit

/-- MongoDBStorage.find_by_name: full-text phase first; when it returns no
documents, a regex fallback over the inline field set; the surviving
documents are converted to parkings. -/
def find_by_name {K : Type} (tm : String → Doc K → Bool)
    (store : List (Doc K)) (name : String) (limit : Nat) : List (Parking K) :=
  let documents := (store.filter (tm name)).take limit
  let documents :=
    if documents.isEmpty then
      (store.filter (fun d => find_by_name_regex_cond name d)).take limit
    else documents
  convert_documents_to_parkings documents

/-- MongoDBStorage.find_by_name_and_number, mirroring the control flow of
the source: an early empty return when both parameters are falsy; under a
truthy name a text phase, then either the name-conditions regex fallback
when the text phase was empty, or, when number is also truthy, a combined
query conjoining the text predicate with the number disjunction; finally,
whenever the accumulated documents are empty and number is truthy, a
number-only regex search. -/
def find_by_name_and_number {K : Type} (tm : String → Doc K → Bool)
    (store : List (Doc K)) (name number : Option String) (limit : Nat) :
    List (Parking K) :=
  if !strTruthy name && !strTruthy number then []
  else
    let documents : List (Doc K) := []
    let documents :=
      if strTruthy name then
        let nm := name.getD ""
        let d1 := search_by_text tm store nm limit
        if d1.isEmpty then
          search_by_regex store (fun d => name_search_cond nm d) limit
        else
          if strTruthy number then
            (store.filter (fun d =>
              tm nm d && number_search_cond (number.getD "") d)).take limit
          else d1
      else documents
    let documents :=
      if documents.isEmpty && strTruthy number then
        search_by_regex store (fun d => number_search_cond (number.getD "") d)
          limit
      else documents
    convert_documents_to_parkings documents

/-! ## find_all and the fallible read interface -/

/-- Python truthiness of the optional limit of find_all: None and 0 are
falsy.  The limit is modelled as a natural number; the code would also
accept negative limits, which the claims do not exercise. -/
def limit_truthy : Option Nat → Bool
  | none => false
  | some n => n != 0

/-- MongoDBStorage.find_all on a successfully read store: the cursor limit
is applied only when the limit is truthy, then every document is drained
with to_list length None and converted. -/
def find_all {K : Type} (store : List (Doc K)) (limit : Option Nat) :
    List (Parking K) :=
  let documents := if limit_truthy limit then store.take (limit.getD 0) else store
  convert_documents_to_parkings documents

/-- MongoDBStorage.find_all including its try and except wrapper: fetch is
the outcome of reading the collection; an internal failure is swallowed
and an empty list is returned. -/
def find_all_result {K : Type} (fetch : Except String (List (Doc K)))
    (limit : Option Nat) : List (Parking K) :=
  match fetch with
  | Except.ok store => find_all store limit
  | Except.error _ => []

/-- MongoDBStorage.find_by_name over a fallible read: the source has no
exception handler, so a store failure propagates to the caller. -/
def find_by_name_result {K : Type} (fetch : Except String (List (Doc K)))
    (tm : String → Doc K → Bool) (name : String) (limit : Nat) :
    Except String (List (Parking K)) :=
  fetch.map (fun store => find_by_name tm store name limit)

/-- MongoDBStorage.find_by_name_and_number over a fallible read: again no
exception handler, a store failure propagates. -/
def find_by_name_and_number_result {K : Type}
    (fetch : Except String (List (Doc K))) (tm : String → Doc K → Bool)
    (name number : Option String) (limit : Nat) :
    Except String (List (Parking K)) :=
  fetch.map (fun store => find_by_name_and_number tm store name number limit)

/-! ## Proximity search -/

/-- math.radians. -/
noncomputable def pyRadians (x : ℝ) : ℝ := x * Real.pi / 180

/-- The inner haversine function of MongoDBStorage._calculate_distance,
verbatim: great-circle distance in meters for the configured earth radius
r (configuration default 6371000). -/
noncomputable def haversine (r lon1 lat1 lon2 lat2 : ℝ) : ℝ :=
  let lon1 := pyRadians lon1
  let lat1 := pyRadians lat1
  let lon2 := pyRadians lon2
  let lat2 := pyRadians lat2
  let dlon := lon2 - lon1
  let dlat := lat2 - lat1
  let a := Real.sin (dlat / 2) ^ 2
    + Real.cos lat1 * Real.cos lat2 * Real.sin (dlon / 2) ^ 2
  let c := 2 * Real.arcsin (Real.sqrt a)
  c * r

/-- MongoDBStorage._calculate_distance: haversine applied to the query
point first and the two stored center coordinates second. -/
noncomputable def calculate_distance (r : ℝ) (coords : Coordinates)
    (lon2 lat2 : ℚ) : ℝ :=
  haversine r (coords.longitude : ℝ) (coords.latitude : ℝ) (lon2 : ℝ) (lat2 : ℝ)

/-- MongoDBStorage._add_distance_to_documents, over an arbitrary distance
function dist: a document whose center coordinates array has exactly two
entries gets its distance field set to dist applied to the two entries;
when either entry is not a number, math.radians raises a TypeError, which
propagates; any other document is left untouched. -/
def add_distance_to_documents {K : Type} (dist : Coordinates → ℚ → ℚ → K)
    (coords : Coordinates) (documents : List (Doc K)) :
    Except String (List (Doc K)) :=
  documents.mapM (fun d =>
    let parking_coords := d.center.coordinates
    if parking_coords.length == 2 then
      match parking_coords with
      | [.num lon, .num lat] =>
        Except.ok { d with distance := some (dist coords lon lat) }
      | _ => Except.error "TypeError"
    else Except.ok d)

/-- Comparison of two sort keys of _sort_parkings_by_distance when both
are present; the catch-all branch is never consulted on the success path
because the sort is only run when every key is present. -/
def option_key_le {K : Type} [LinearOrder K] : Option K → Option K → Bool
  | some x, some y => decide (x ≤ y)
  | _, _ => true

/-- MongoDBStorage._sort_parkings_by_distance as executed by Python.  The
getattr call always finds the distance attribute because the pydantic
model declares the field with default None, so its inf default is dead;
the sort key of a parking is therefore its distance value, possibly None.
list.sort compares keys only when the list has at least two elements; it
sorts stably and ascending when every key is a number, and raises a
TypeError on the first comparison involving None, which with at least two
elements always occurs when any key is None. -/
def sort_parkings_by_distance {K : Type} [LinearOrder K]
    (parkings : List (Parking K)) : Except String (List (Parking K)) :=
  if parkings.length ≤ 1 then Except.ok parkings
  else if parkings.all (fun p => p.distance.isSome) then
    Except.ok (parkings.mergeSort (fun a b => option_key_le a.distance b.distance))
  else Except.error "TypeError"

/-- MongoDBStorage.find_by_coordinates: near_documents is the response of
the store to the geospatial query built from the query point and radius;
the cursor is limited and drained, distances are recomputed and attached,
documents are converted, and the parkings are sorted by the recomputed
distance. -/
def find_by_coordinates {K : Type} [LinearOrder K]
    (dist : Coordinates → ℚ → ℚ → K) (near_documents : List (Doc K))
    (coords : Coordinates) (limit : Nat) :
    Except String (List (Parking K)) := do
  let documents := near_documents.take limit
  let documents ← add_distance_to_documents dist coords documents
  let parkings := convert_documents_to_parkings documents
  sort_parkings_by_distance parkings

/-! ## A concrete text-match instance and concrete records -/

/-- The fields covered by the full-text index created in _ensure_indexes:
name, address street and house, subway and description, both languages. -/
def text_index_fields {K : Type} (d : Doc K) : List String :=
  [d.name.ru, d.name.en, d.address.street.ru, d.address.street.en,
    d.address.house.ru, d.address.house.en]
    ++ (match d.subway with | some l => [l.ru, l.en] | none => [])
    ++ [d.description.ru, d.description.en]

/-- One executable instance of the text-match parameter: a document
matches when some lowercased whitespace token of the query equals some
token of an indexed field.  This models the disjunctive term matching of
the MongoDB text operator over the index of _ensure_indexes (without
stemming or stop words, which the concrete scenarios below do not
exercise). -/
def token_text_match {K : Type} (query : String) (d : Doc K) : Bool :=
  (tokenize query).any (fun t =>
    (text_index_fields d).any (fun f => (tokenize f).any (fun w => w == t)))

/-- A point geometry at the origin. -/
def originPoint : Geometry :=
  { type := "Point", coordinates := [.num 0, .num 0] }

/-- A baseline stored document with neutral field values; concrete
records below are built from it by field update. -/
def baseDoc (K : Type) : Doc K :=
  { id := 1
    address :=
      { house := { en := "1", ru := "1" }
        street := { en := "Main Street", ru := "Glavnaya" } }
    blocked := false
    category := { id := 1, icon_name := none, zone_purpose := none }
    center := originPoint
    city := "Moscow"
    contacts := { en := "contact", ru := "kontakt" }
    custom_type := none
    description := { en := "City lot", ru := "Stoyanka" }
    location := originPoint
    name := { en := "Central", ru := "Centralnaya" }
    litera := none
    resolution_address := "Main Street 1"
    spaces := { common := none, total := some 10 }
    subway := none
    zone := none
    distance := none }

/-- A baseline parking entity with the same neutral values as baseDoc. -/
def sampleParking (K : Type) : Parking K :=
  { id := 1
    address :=
      { house := { en := "1", ru := "1" }
        street := { en := "Main Street", ru := "Glavnaya" } }
    blocked := false
    category := { id := 1, icon_name := none, zone_purpose := none }
    center := originPoint
    city := "Moscow"
    contacts := { en := "contact", ru := "kontakt" }
    custom_type := none
    description := { en := "City lot", ru := "Stoyanka" }
    location := originPoint
    name := { en := "Central", ru := "Centralnaya" }
    litera := none
    resolution_address := "Main Street 1"
    spaces := { common := none, total := some 10 }
    subway := none
    zone := none
    distance := none }

/-- Scenario store of the specification: a record named Park A with
number Z1 and a record named Park A Annex with number Z2. -/
def c1ScenarioStore : List (Doc ℚ) :=
  [{ baseDoc ℚ with
      id := 1
      name := { en := "Park A", ru := "Park A" }
      litera := some "Z1" },
    { baseDoc ℚ with
      id := 2
      name := { en := "Park A Annex", ru := "Park A Annex" }
      litera := some "Z2" }]

/-- Counterexample store: a record whose name matches the text query but
not the number, next to a record that matches the number only. -/
def c1CounterStore : List (Doc ℚ) :=
  [{ baseDoc ℚ with
      id := 1
      name := { en := "Park A", ru := "Park A" }
      litera := some "Q9" },
    { baseDoc ℚ with
      id := 2
      name := { en := "Beta Yard", ru := "Beta Yard" }
      litera := some "Z1"
      address :=
        { house := { en := "2", ru := "2" }
          street := { en := "Side Road", ru := "Bokovaya" } } }]

/-- A stored document with a valid Point center, as the geospatial index
requires. -/
def c2DocPoint (K : Type) : Doc K :=
  { baseDoc K with
    id := 1
    center := { type := "Point", coordinates := [.num 0, .num 0] } }

/-- A stored document whose center is a valid three-point LineString: it
passes both the geospatial index and pydantic validation, yet its outer
coordinates array does not have exactly two entries, so no distance is
computed for it. -/
def c2DocLine (K : Type) : Doc K :=
  { baseDoc K with
    id := 2
    center :=
      { type := "LineString",
        coordinates :=
          [.arr [.num 0, .num 1], .arr [.num 2, .num 3],
            .arr [.num 4, .num 5]] } }

/-- The query point of the proximity scenario. -/
def c2Query : Coordinates := { latitude := 0, longitude := 0 }

/-- The sample entity with a transient distance attached, as a proximity
search result would carry. -/
def sampleParkingWithDistance : Parking ℚ :=
  { sampleParking ℚ with distance := some 5 }

/-! ## Substring characterization lemmas -/

/-- leadMatch decides the leading-segment relation. -/
theorem leadMatch_iff (p s : List Char) :
    leadMatch p s = true ↔ ∃ r, s = p ++ r := by
  induction p generalizing s with
  | nil => simp [leadMatch]
  | cons a as ih =>
    cases s with
    | nil => simp [leadMatch]
    | cons b bs =>
      simp only [leadMatch, Bool.and_eq_true, beq_iff_eq, ih, List.cons_append,
        List.cons.injEq]
      constructor
      · rintro ⟨hab, r, hr⟩
        exact ⟨r, hab.symm, hr⟩
      · rintro ⟨r, hba, hr⟩
        exact ⟨hba.symm, r, hr⟩

/-- listSub decides contiguous containment: the pattern occurs inside the
string exactly when the string splits around it. -/
theorem listSub_iff (p s : List Char) :
    listSub p s = true ↔ ∃ l r, s = l ++ p ++ r := by
  induction s with
  | nil =>
    simp only [listSub, List.isEmpty_iff]
    constructor
    · intro h
      exact ⟨[], [], by simp [h]⟩
    · rintro ⟨l, r, hlr⟩
      rcases List.append_eq_nil.mp (List.append_eq_nil.mp hlr.symm).1 with ⟨-, hp⟩
      exact hp
  | cons c cs ih =>
    rw [listSub]
    simp only [Bool.or_eq_true, leadMatch_iff, ih]
    constructor
    · rintro (⟨r, hr⟩ | ⟨l, r, hlr⟩)
      · exact ⟨[], r, by simpa using hr⟩
      · exact ⟨c :: l, r, by simp [hlr]⟩
    · rintro ⟨l, r, hlr⟩
      cases l with
      | nil => exact Or.inl ⟨r, by simpa using hlr⟩
      | cons x xs =>
        right
        simp only [List.cons_append, List.cons.injEq] at hlr
        exact ⟨xs, r, hlr.2⟩

/-! ## Claim C1 -/

/-- Claim C1, counterexample.  The claim states that whenever the text
phase of find_by_name_and_number hits and a number is supplied, the result
is exactly the text-search set AND-narrowed by the number filter and
truncated to limit.  On c1CounterStore with name Park and number Z1 the
text phase hits (first conjunct) and the AND-narrowed truncated set is
empty (second conjunct), yet the call returns the record with id 2, found
by the number-only fallback (third conjunct), so the claim as stated is
false at this input. -/
theorem find_by_name_and_number_and_narrow_counterexample :
    ((c1CounterStore.filter (token_text_match "Park")).take 10).isEmpty = false
    ∧ convert_documents_to_parkings ((c1CounterStore.filter (fun d =>
        token_text_match "Park" d && number_search_cond "Z1" d)).take 10) = []
    ∧ (find_by_name_and_number token_text_match c1CounterStore (some "Park")
        (some "Z1") 10).map (fun p => p.id) = [2] :=
  ⟨rfl, rfl, rfl⟩

/-- Claim C1, amended.  With a truthy name whose text phase returns at
least one document and a truthy number, find_by_name_and_number returns
the text-search result set AND-narrowed by the number filter (regex over
litera or zone.number) and truncated to limit, provided that narrowed set
is non-empty; when the narrowed set is empty the code falls back to a
number-only regex search truncated to limit.  In particular, on the
scenario store with records Park A (number Z1) and Park A Annex (number
Z2), the query for name Park A and number Z1 returns only the first
record. -/
theorem find_by_name_and_number_text_hit_with_number :
    (∀ (K : Type) (tm : String → Doc K → Bool) (store : List (Doc K))
      (name number : String) (limit : Nat),
      name.isEmpty = false → number.isEmpty = false →
      ((store.filter (tm name)).take limit).isEmpty = false →
      find_by_name_and_number tm store (some name) (some number) limit =
        convert_documents_to_parkings
          (if ((store.filter (fun d =>
                tm name d && number_search_cond number d)).take limit).isEmpty then
            (store.filter (fun d => number_search_cond number d)).take limit
          else
            (store.filter (fun d =>
              tm name d && number_search_cond number d)).take limit))
    ∧ (find_by_name_and_number token_text_match c1ScenarioStore (some "Park A")
        (some "Z1") 10).map (fun p => p.id) = [1] := by
  constructor
  · intro K tm store name number limit hn hm ht
    unfold find_by_name_and_number search_by_text search_by_regex
    simp only [strTruthy, hn, hm, Bool.not_false, Bool.and_self, Bool.not_true,
      Bool.false_and, Bool.and_false, Option.getD_some, ht, Bool.and_true,
      if_false, Bool.false_eq_true, ite_false, ite_true]
  · rfl

/-- Claim C1, witness: the amended statement applied to the scenario
store, every hypothesis discharged by evaluation. -/
theorem find_by_name_and_number_text_hit_with_number_witness :
    ("Park A".isEmpty = false ∧ "Z1".isEmpty = false
      ∧ ((c1ScenarioStore.filter
          (token_text_match "Park A")).take 10).isEmpty = false)
    ∧ find_by_name_and_number token_text_match c1ScenarioStore (some "Park A")
        (some "Z1") 10 =
      convert_documents_to_parkings
        (if ((c1ScenarioStore.filter (fun d =>
              token_text_match "Park A" d
                && number_search_cond "Z1" d)).take 10).isEmpty then
          (c1ScenarioStore.filter (fun d => number_search_cond "Z1" d)).take 10
        else
          (c1ScenarioStore.filter (fun d =>
            token_text_match "Park A" d && number_search_cond "Z1" d)).take 10) :=
  ⟨⟨rfl, rfl, rfl⟩,
    find_by_name_and_number_text_hit_with_number.1 ℚ token_text_match
      c1ScenarioStore "Park A" "Z1" 10 rfl rfl rfl⟩

/-! ## Claim C2 -/

/-- A store response mixing one document with a computed distance and one
document without leads every instantiation of the distance function into
the failing sort; the value of the distance plays no role. -/
theorem find_by_coordinates_mixed_raises (K : Type) [LinearOrder K]
    (dist : Coordinates → ℚ → ℚ → K) :
    find_by_coordinates dist [c2DocPoint K, c2DocLine K] c2Query 10 =
      Except.error "TypeError" := rfl

/-- Claim C2.  The claim states that records whose center does not hold
exactly two coordinate values still appear in the result of
find_by_coordinates, ordered last through an infinite-distance sentinel.
The code disagrees: the pydantic model always defines the distance
attribute, so the inf default of getattr is dead, such records keep the
sort key None, and with the haversine distance attached to the other
record the Python sort raises a TypeError instead of returning a list.
The theorem evaluates the pipeline with the embedded haversine distance at
the failing store response, for every configured earth radius. -/
theorem find_by_coordinates_none_distance_type_error (r : ℝ) :
    find_by_coordinates (calculate_distance r) [c2DocPoint ℝ, c2DocLine ℝ]
      c2Query 10 = Except.error "TypeError" :=
  find_by_coordinates_mixed_raises ℝ (calculate_distance r)

/-! ## Claim C3 -/

/-- Claim C3.  Upsert with an empty ActiveParkings collection leaves the
prior store contents unchanged; with a non-empty collection the resulting
store holds exactly the dumped new records, every old record gone. -/
theorem upsert_bulk_replace :
    (∀ (K : Type) (store : List (Doc K)),
      upsert (ActiveParkings.mk []) store = store)
    ∧ (∀ (K : Type) (parkings : List (Parking K)) (store : List (Doc K)),
      parkings.isEmpty = false →
      upsert (ActiveParkings.mk parkings) store =
        parkings.map parking_model_dump) := by
  constructor
  · intro K store
    rfl
  · intro K parkings store hne
    cases parkings with
    | nil => simp at hne
    | cons p ps => rfl

/-- Claim C3, witness: the non-empty branch applied to a singleton
collection over a non-empty prior store. -/
theorem upsert_bulk_replace_witness :
    ([sampleParking ℚ].isEmpty = false)
    ∧ upsert (ActiveParkings.mk [sampleParking ℚ]) [baseDoc ℚ] =
        [sampleParking ℚ].map parking_model_dump :=
  ⟨rfl, upsert_bulk_replace.2 ℚ [sampleParking ℚ] [baseDoc ℚ] rfl⟩

/-! ## Claim C4 -/

/-- Claim C4.  A parking is active exactly when its lowercased English
name does not contain the substring disabled parking; the blocked flag
plays no role in the check; and every document a synchronization run adds
to the store satisfies the activity predicate, because the filter runs at
ingestion, before upsert. -/
theorem active_parking_invariant :
    (∀ (K : Type) (p : Parking K),
      is_active p = true ↔
        ¬ ∃ l r, lowerChars p.name.en = l ++ "disabled parking".toList ++ r)
    ∧ (∀ (K : Type) (p : Parking K) (b : Bool),
      is_active { p with blocked := b } = is_active p)
    ∧ (∀ (K : Type) (raw_parkings : List (Parking K)) (store : List (Doc K))
        (d : Doc K), d ∈ save_or_update_parking_spots raw_parkings store →
      d ∈ store ∨
        ¬ ∃ l r, lowerChars d.name.en = l ++ "disabled parking".toList ++ r) := by
  refine ⟨?_, ?_, ?_⟩
  · intro K p
    rw [is_active, Bool.not_eq_true', ← Bool.not_eq_true (listSub _ _), listSub_iff]
  · intro K p b
    rfl
  · intro K raw_parkings store d hd
    unfold save_or_update_parking_spots upsert at hd
    by_cases he : (filter_active_parkings raw_parkings).is_empty
    · rw [if_pos he] at hd
      exact Or.inl hd
    · rw [if_neg he] at hd
      right
      rw [clear_collection, insert_documents] at hd
      rcases em ((convert_parkings_to_documents
          (filter_active_parkings raw_parkings)).isEmpty = true) with h2 | h2
      · rw [if_pos h2] at hd
        exact absurd hd (List.not_mem_nil d)
      · rw [if_neg h2, List.nil_append] at hd
        rcases List.mem_map.mp hd with ⟨p, hp, hpd⟩
        rcases List.mem_filter.mp hp with ⟨-, hact⟩
        rw [is_active, Bool.not_eq_true'] at hact
        intro hex
        rw [← hpd] at hex
        rw [← Bool.not_eq_true (listSub _ _), listSub_iff] at hact
        exact hact hex

/-- Claim C4, witness: one synchronization run over a singleton fetch and
an empty prior store; the persisted document satisfies the activity
predicate. -/
theorem active_parking_invariant_witness :
    (parking_model_dump (sampleParking ℚ) ∈
      save_or_update_parking_spots [sampleParking ℚ] ([] : List (Doc ℚ)))
    ∧ (parking_model_dump (sampleParking ℚ) ∈ ([] : List (Doc ℚ))
      ∨ ¬ ∃ l r, lowerChars (parking_model_dump (sampleParking ℚ)).name.en =
          l ++ "disabled parking".toList ++ r) := by
  have hmem : parking_model_dump (sampleParking ℚ) ∈
      save_or_update_parking_spots [sampleParking ℚ] ([] : List (Doc ℚ)) := by
    show parking_model_dump (sampleParking ℚ) ∈ [parking_model_dump (sampleParking ℚ)]
    exact List.mem_singleton.mpr rfl
  exact ⟨hmem, active_parking_invariant.2.2 ℚ [sampleParking ℚ] [] _ hmem⟩

/-! ## Claim C5 -/

/-- Claim C5.  find_by_name attempts the full-text phase first and
returns its results unchanged when it hits; the case-insensitive regex
fallback, OR-combined over exactly the name, street, subway and
description fields in both languages, runs exactly when the text phase
yields zero documents. -/
theorem find_by_name_two_phase :
    ∀ (K : Type) (tm : String → Doc K → Bool) (store : List (Doc K))
      (name : String) (limit : Nat),
    (((store.filter (tm name)).take limit).isEmpty = false →
      find_by_name tm store name limit =
        convert_documents_to_parkings ((store.filter (tm name)).take limit))
    ∧ (((store.filter (tm name)).take limit).isEmpty = true →
      find_by_name tm store name limit =
        convert_documents_to_parkings ((store.filter (fun d =>
          regexIMatch name d.name.ru || regexIMatch name d.name.en
            || regexIMatch name d.address.street.ru
            || regexIMatch name d.address.street.en
            || optRuMatch name d.subway || optEnMatch name d.subway
            || regexIMatch name d.description.ru
            || regexIMatch name d.description.en)).take limit)) := by
  intro K tm store name limit
  constructor
  · intro ht
    unfold find_by_name
    simp only [ht, Bool.false_eq_true, ite_false]
  · intro ht
    unfold find_by_name find_by_name_regex_cond
    simp only [ht, ite_true]

/-- Claim C5, witness: both phases exercised on the scenario store, the
text-hit branch with the query Park A and the fallback branch with a
query matching nothing. -/
theorem find_by_name_two_phase_witness :
    (((c1ScenarioStore.filter
          (token_text_match "Park A")).take 10).isEmpty = false
      ∧ find_by_name token_text_match c1ScenarioStore "Park A" 10 =
          convert_documents_to_parkings
            ((c1ScenarioStore.filter (token_text_match "Park A")).take 10))
    ∧ (((c1ScenarioStore.filter
          (token_text_match "Nonexistent")).take 10).isEmpty = true
      ∧ find_by_name token_text_match c1ScenarioStore "Nonexistent" 10 =
          convert_documents_to_parkings ((c1ScenarioStore.filter (fun d =>
            regexIMatch "Nonexistent" d.name.ru
              || regexIMatch "Nonexistent" d.name.en
              || regexIMatch "Nonexistent" d.address.street.ru
              || regexIMatch "Nonexistent" d.address.street.en
              || optRuMatch "Nonexistent" d.subway
              || optEnMatch "Nonexistent" d.subway
              || regexIMatch "Nonexistent" d.description.ru
              || regexIMatch "Nonexistent" d.description.en)).take 10)) :=
  ⟨⟨rfl, (find_by_name_two_phase ℚ token_text_match c1ScenarioStore
      "Park A" 10).1 rfl⟩,
    ⟨rfl, (find_by_name_two_phase ℚ token_text_match c1ScenarioStore
      "Nonexistent" 10).2 rfl⟩⟩

/-! ## Claim C6 -/

/-- Claim C6.  find_by_name_and_number with both parameters None returns
the empty list for every store state and limit, before any query reaches
the store: the result does not depend on the store at all. -/
theorem find_by_name_and_number_both_none_empty (K : Type)
    (tm : String → Doc K → Bool) (store : List (Doc K)) (limit : Nat) :
    find_by_name_and_number tm store none none limit = [] := rfl

/-! ## Claim C7 -/

/-- Claim C7, counterexample.  The claim states that the document
produced when writing a parking to the store contains no distance value
originating from the entity.  For the entity carrying distance 5 the
dumped document carries exactly that value, so the claim as stated is
false at this input. -/
theorem parking_model_dump_keeps_distance_counterexample :
    (parking_model_dump sampleParkingWithDistance).distance ≠ none
    ∧ (parking_model_dump sampleParkingWithDistance).distance = some (5 : ℚ) :=
  ⟨fun h => Option.noConfusion h, rfl⟩

/-- Claim C7, amended.  model_dump performs no exclusion: the persisted
document carries the distance field of the entity verbatim.  In the
ingestion flow the fetched entities carry None there, so stored documents
hold a null distance rather than no distance; the field is populated with
a number only transiently, on proximity-search results. -/
theorem parking_model_dump_distance_verbatim (K : Type) (p : Parking K) :
    (parking_model_dump p).distance = p.distance := rfl

/-! ## Claim C8 -/

/-- Claim C8.  A failed read makes find_all return the empty list instead
of propagating the error, so its callers cannot tell no data from a read
failure, while the same failure propagates unchanged out of the other
query operations, here find_by_name and find_by_name_and_number; on a
successful read find_all behaves as the pure query. -/
theorem find_all_swallows_read_errors (K : Type) (e : String)
    (limit : Option Nat) (tm : String → Doc K → Bool) (name : String)
    (lim2 : Nat) (name2 number2 : Option String) (lim3 : Nat) :
    find_all_result (K := K) (Except.error e) limit = []
    ∧ find_by_name_result (Except.error e) tm name lim2 = Except.error e
    ∧ find_by_name_and_number_result (Except.error e) tm name2 number2 lim3 =
        Except.error e
    ∧ ∀ store : List (Doc K), find_all_result (Except.ok store) limit =
        find_all store limit :=
  ⟨rfl, rfl, rfl, fun _ => rfl⟩

/-! ## Claim C9 -/

/-- Claim C9.  The guard of find_by_name_and_number tests Python
truthiness, so an empty string behaves like an absent parameter: every
combination of None and the empty string returns the empty list
immediately, for every store state and limit. -/
theorem find_by_name_and_number_empty_string_guard (K : Type)
    (tm : String → Doc K → Bool) (store : List (Doc K)) (limit : Nat) :
    find_by_name_and_number tm store (some "") (some "") limit = []
    ∧ find_by_name_and_number tm store (some "") none limit = []
    ∧ find_by_name_and_number tm store none (some "") limit = [] :=
  ⟨rfl, rfl, rfl⟩

/-! ## Claim C10 -/

/-- Claim C10.  find_all applies the cursor limit only when the limit is
truthy, so limit 0 behaves exactly like limit None and returns the
conversion of every stored document. -/
theorem find_all_zero_limit_unbounded (K : Type) (store : List (Doc K)) :
    find_all store (some 0) = find_all store none
    ∧ find_all store (some 0) = convert_documents_to_parkings store :=
  ⟨rfl, rfl⟩
